import Mathlib

/-!
Shallow embedding of the GpsLogger connectivity core:
  - `src/WiFiService.h`   : the WiFi connectivity state machine,
  - `src/NTPService.h`    : the NTP time-sync state machine,
  - `src/SchedulerService.h` : the calendar rollover (edge) detectors.

The C++ code keeps its state in module-level `int` globals and performs its
effects by calling into external collaborators (`WiFi.*`, `timeClient.*`,
`rtc.*`).  The embedding makes the globals an explicit record that each
operation transforms, and instruments the externally visible requests
(`WiFi.disconnect()`, `WiFi.begin(...)`, `rtc.setTime(...)`,
`schedulerInit()`, `timeClient.forceUpdate()`) as counters/lists in the same
record.  The boolean reported by the network layer (`WiFi.status() ==
WL_CONNECTED`) and by the time client (`timeClient.update()`), and the value
returned by `timeClient.getEpochTime()`, are inputs of the per-call service
functions.  C++ `int` is modelled as `Int`.
-/

/-! ## WiFiService.h -/

def WIFISTATE_DISCONNECTED : Int := 0
def WIFISTATE_CONNECTING : Int := 1
def WIFISTATE_CONNECTED : Int := 2
def WIFISTATE_DISCOWAIT : Int := 3
def WIFISTATE_ERRORTIMEOUT : Int := 4

/-- seconds to wait before connect request times out -/
def WIFIWAIT_MAX : Int := 30
/-- seconds to wait after a connect times out before retrying -/
def WIFIRECONNECT_MAX : Int := 60
/-- seconds after a disconnect is discovered before trying to connect again -/
def WIFIDISCOWAIT_MAX : Int := 10

/-- The state of `WiFiService.h`: the globals `wifiState` and
`wifiWaitSecondCounter`, plus instrumentation counting the requests the
module issues to the network layer (`WiFi.disconnect()` calls and
`WiFi.mode/WiFi.begin` association requests). -/
structure WifiMachine where
  wifiState : Int
  wifiWaitSecondCounter : Int
  /-- number of `WiFi.disconnect()` calls issued so far -/
  disconnectCalls : Nat
  /-- number of `WiFi.begin(wifissid,wifipwd)` association requests issued so far -/
  beginCalls : Nat
deriving DecidableEq, Repr

/-- Process start: `int wifiState = WIFISTATE_DISCONNECTED; int
wifiWaitSecondCounter = 0;`, no requests issued yet. -/
def initialWifiMachine : WifiMachine :=
  { wifiState := WIFISTATE_DISCONNECTED, wifiWaitSecondCounter := 0
    disconnectCalls := 0, beginCalls := 0 }

/-- `void wifiInit()` -/
def wifiInit (m : WifiMachine) : WifiMachine :=
  { m with wifiState := WIFISTATE_DISCONNECTED, wifiWaitSecondCounter := 0 }

/-- `void wifiDisconnect()` : go to `DISCONNECTED`, zero the counter, and
issue a disassociation request. -/
def wifiDisconnect (m : WifiMachine) : WifiMachine :=
  { m with wifiState := WIFISTATE_DISCONNECTED, wifiWaitSecondCounter := 0
           disconnectCalls := m.disconnectCalls + 1 }

/-- `void wifiConnect()` : go to `CONNECTING`, zero the counter, and issue an
association request (`WiFi.mode(WIFI_STA); WiFi.begin(wifissid,wifipwd)`). -/
def wifiConnect (m : WifiMachine) : WifiMachine :=
  { m with wifiState := WIFISTATE_CONNECTING, wifiWaitSecondCounter := 0
           beginCalls := m.beginCalls + 1 }

/-- First block of `wifiService()` (`if (wifiState == WIFISTATE_CONNECTING)`),
`status` being this call's reading of `WiFi.status() == WL_CONNECTED`. -/
def wifiStepConnecting (status : Bool) (m : WifiMachine) : WifiMachine :=
  if m.wifiState = WIFISTATE_CONNECTING then
    if status then
      { m with wifiState := WIFISTATE_CONNECTED, wifiWaitSecondCounter := 0 }
    else
      let m1 := { m with wifiWaitSecondCounter := m.wifiWaitSecondCounter + 1 }
      if m1.wifiWaitSecondCounter ≥ WIFIWAIT_MAX then
        { m1 with wifiState := WIFISTATE_ERRORTIMEOUT, wifiWaitSecondCounter := 0
                  disconnectCalls := m1.disconnectCalls + 1 }
      else m1
  else m

/-- Second block of `wifiService()` (`if (wifiState == WIFISTATE_DISCOWAIT)`). -/
def wifiStepDiscoWait (m : WifiMachine) : WifiMachine :=
  if m.wifiState = WIFISTATE_DISCOWAIT then
    let m1 := { m with wifiWaitSecondCounter := m.wifiWaitSecondCounter + 1 }
    if m1.wifiWaitSecondCounter ≥ WIFIDISCOWAIT_MAX then wifiConnect m1 else m1
  else m

/-- Third block of `wifiService()`
(`if ((wifiState == WIFISTATE_CONNECTED) && (WiFi.status() != WL_CONNECTED))`). -/
def wifiStepConnectedCheck (status : Bool) (m : WifiMachine) : WifiMachine :=
  if m.wifiState = WIFISTATE_CONNECTED ∧ status = false then
    { m with wifiState := WIFISTATE_DISCOWAIT, wifiWaitSecondCounter := 0 }
  else m

/-- Fourth block of `wifiService()` (`if (wifiState == WIFISTATE_ERRORTIMEOUT)`). -/
def wifiStepErrorTimeout (m : WifiMachine) : WifiMachine :=
  if m.wifiState = WIFISTATE_ERRORTIMEOUT then
    let m1 := { m with wifiWaitSecondCounter := m.wifiWaitSecondCounter + 1 }
    if m1.wifiWaitSecondCounter ≥ WIFIRECONNECT_MAX then wifiConnect m1 else m1
  else m

/-- `void wifiService()` : the four `if` blocks run in sequence (they are not
`else if`s), so a block may observe a state set by an earlier block of the
same call. -/
def wifiService (status : Bool) (m : WifiMachine) : WifiMachine :=
  wifiStepErrorTimeout (wifiStepConnectedCheck status
    (wifiStepDiscoWait (wifiStepConnecting status m)))

/-- `n` consecutive once-per-second `wifiService()` calls, the network layer
reporting `status` at every call. -/
def wifiServiceN (status : Bool) : Nat → WifiMachine → WifiMachine
  | 0, m => m
  | n + 1, m => wifiServiceN status n (wifiService status m)

/-- Consecutive `wifiService()` calls, the network layer reporting the
successive elements of `ss`. -/
def wifiServiceRun (ss : List Bool) (m : WifiMachine) : WifiMachine :=
  ss.foldl (fun acc s => wifiService s acc) m

/-- `int wifiIsConnected()` -/
def wifiIsConnected (m : WifiMachine) : Bool :=
  m.wifiState = WIFISTATE_CONNECTED

/-! ## NTPService.h -/

def NTPSTATE_IDLE : Int := 0
def NTPSTATE_STARTED : Int := 1
def NTPSTATE_COMPLETE : Int := 2
def NTPSTATE_TIMEOUTERROR : Int := 3
/-- seconds -/
def NTPWAIT_MAX : Int := 30

/-- The state of `NTPService.h`: the globals `ntpState`,
`ntpWaitSecondCounter`, `ntpAttempts` and `ntpSuccess` (a C `int` used as a
boolean), plus instrumentation recording the requests the module issues to
its collaborators: the epochs passed to `rtc.setTime(...)`, the number of
`schedulerInit()` invocations, and the number of `timeClient.forceUpdate()`
calls. -/
structure NtpMachine where
  ntpState : Int
  ntpWaitSecondCounter : Int
  ntpAttempts : Int
  ntpSuccess : Bool
  /-- epochs passed to `rtc.setTime(epochTime)`, in call order -/
  rtcSetCalls : List Nat
  /-- number of `schedulerInit()` invocations issued so far -/
  schedulerInitCalls : Nat
  /-- number of `timeClient.forceUpdate()` calls issued so far -/
  forceUpdateCalls : Nat
deriving DecidableEq, Repr

/-- Process start: `ntpState = NTPSTATE_IDLE`, all counters zero,
`ntpSuccess = false`, no requests issued yet. -/
def initialNtpMachine : NtpMachine :=
  { ntpState := NTPSTATE_IDLE, ntpWaitSecondCounter := 0, ntpAttempts := 0
    ntpSuccess := false, rtcSetCalls := [], schedulerInitCalls := 0
    forceUpdateCalls := 0 }

/-- `void ntpInit()` -/
def ntpInit (m : NtpMachine) : NtpMachine :=
  { m with ntpState := NTPSTATE_IDLE, ntpWaitSecondCounter := 0
           ntpAttempts := 0, ntpSuccess := false }

/-- `void ntpStart()` : configure the NTP client (external effect) and go to
`STARTED` with a zeroed wait counter and `ntpSuccess = false`. -/
def ntpStart (m : NtpMachine) : NtpMachine :=
  { m with ntpState := NTPSTATE_STARTED, ntpWaitSecondCounter := 0
           ntpSuccess := false }

/-- `void ntpService()` : `updateOk` is this call's result of
`timeClient.update()`, and `epochTime` the value `timeClient.getEpochTime()`
would return on this call. -/
def ntpService (updateOk : Bool) (epochTime : Nat) (m : NtpMachine) : NtpMachine :=
  if m.ntpState = NTPSTATE_STARTED then
    if updateOk then
      { m with rtcSetCalls := m.rtcSetCalls ++ [epochTime]
               schedulerInitCalls := m.schedulerInitCalls + 1
               ntpSuccess := true
               ntpAttempts := m.ntpAttempts + 1
               ntpState := NTPSTATE_COMPLETE }
    else
      let m1 := { m with forceUpdateCalls := m.forceUpdateCalls + 1
                         ntpWaitSecondCounter := m.ntpWaitSecondCounter + 1 }
      if m1.ntpWaitSecondCounter ≥ NTPWAIT_MAX then
        { m1 with ntpState := NTPSTATE_TIMEOUTERROR, ntpSuccess := false }
      else m1
  else m

/-- `n` consecutive `ntpService()` calls during which `timeClient.update()`
always reports `updateOk` and `getEpochTime()` would return `epochTime`. -/
def ntpServiceN (updateOk : Bool) (epochTime : Nat) : Nat → NtpMachine → NtpMachine
  | 0, m => m
  | n + 1, m => ntpServiceN updateOk epochTime n (ntpService updateOk epochTime m)

/-- `int ntpStarted()` -/
def ntpStarted (m : NtpMachine) : Bool :=
  m.ntpState = NTPSTATE_STARTED

/-- `int ntpComplete()` -/
def ntpComplete (m : NtpMachine) : Bool :=
  m.ntpSuccess

/-! ## SchedulerService.h

Each detector reads one field of the Clock Source (`rtc.getSecond()`,
`rtc.getMinute()`, `rtc.getHour(true)`, `rtc.getDay()`), compares it to its
`last*` global and possibly updates that global.  The embedding passes the
baseline in and out explicitly: `f baseline field = (result, newBaseline)`.
The Clock Source is external (spec section 6: `getSecond/getMinute/getHour/
getDay`, always succeed); its fields are the `Int` inputs. -/

/-- `int dayDetector()` with baseline `lastDay` and this call's
`rtc.getDay()` reading `day`. -/
def dayDetector (lastDay day : Int) : Bool × Int :=
  if day = lastDay then (false, lastDay)
  else if lastDay = -1 then (false, day)
  else (true, day)

/-- `int hourDetector()` with baseline `lastHr` and this call's
`rtc.getHour(true)` reading `hr`. -/
def hourDetector (lastHr hr : Int) : Bool × Int :=
  if hr = lastHr then (false, lastHr) else (true, hr)

/-- `int minuteDetector()` with baseline `lastMin` and this call's
`rtc.getMinute()` reading `zmin`. -/
def minuteDetector (lastMin zmin : Int) : Bool × Int :=
  if zmin = lastMin then (false, lastMin) else (true, zmin)

/-- `int secondDetector()` with baseline `lastSec` and this call's
`rtc.getSecond()` reading `sec`. -/
def secondDetector (lastSec sec : Int) : Bool × Int :=
  if sec = lastSec then (false, lastSec) else (true, sec)

/-- The four baseline globals `lastSec, lastMin, lastHr, lastDay` of
`SchedulerService.h`. -/
structure SchedulerBaseline where
  lastSec : Int
  lastMin : Int
  lastHr : Int
  lastDay : Int
deriving DecidableEq, Repr

/-- Process start: `int lastDay = -1;` etc. — all four baselines hold the
unset sentinel `-1`. -/
def initialSchedulerBaseline : SchedulerBaseline :=
  { lastSec := -1, lastMin := -1, lastHr := -1, lastDay := -1 }

/-- Repeated calls of one detector: from baseline `b`, feed it the successive
clock-field readings `rs` and collect the returned booleans. -/
def runDetector (f : Int → Int → Bool × Int) : Int → List Int → List Bool
  | _, [] => []
  | b, r :: rs => (f b r).1 :: runDetector f (f b r).2 rs

/-- The edge-event pattern of a reading sequence: position `i` is true
exactly when reading `i` differs from its predecessor (from `b` for the
first reading). -/
def edgeEvents : Int → List Int → List Bool
  | _, [] => []
  | b, r :: rs => (decide ¬(r = b)) :: edgeEvents r rs

/-! ## Step lemmas for `wifiService`

One lemma per reachable branch of a single `wifiService()` call, each proved
by unfolding the four sequential blocks. -/

theorem wifiService_disconnected (s : Bool) (m : WifiMachine)
    (h : m.wifiState = WIFISTATE_DISCONNECTED) :
    wifiService s m = m := by
  simp [wifiService, wifiStepConnecting, wifiStepDiscoWait, wifiStepConnectedCheck,
    wifiStepErrorTimeout, h, WIFISTATE_DISCONNECTED, WIFISTATE_CONNECTING,
    WIFISTATE_CONNECTED, WIFISTATE_DISCOWAIT, WIFISTATE_ERRORTIMEOUT]

theorem wifiService_connecting_assoc (m : WifiMachine)
    (h : m.wifiState = WIFISTATE_CONNECTING) :
    wifiService true m =
      { m with wifiState := WIFISTATE_CONNECTED, wifiWaitSecondCounter := 0 } := by
  simp [wifiService, wifiStepConnecting, wifiStepDiscoWait, wifiStepConnectedCheck,
    wifiStepErrorTimeout, h, WIFISTATE_CONNECTING, WIFISTATE_CONNECTED,
    WIFISTATE_DISCOWAIT, WIFISTATE_ERRORTIMEOUT]

theorem wifiService_connecting_wait (m : WifiMachine)
    (h : m.wifiState = WIFISTATE_CONNECTING)
    (hlt : m.wifiWaitSecondCounter + 1 < WIFIWAIT_MAX) :
    wifiService false m =
      { m with wifiWaitSecondCounter := m.wifiWaitSecondCounter + 1 } := by
  have h30 : ¬ ((30 : Int) ≤ m.wifiWaitSecondCounter + 1) := by
    simp [WIFIWAIT_MAX] at hlt; omega
  simp [wifiService, wifiStepConnecting, wifiStepDiscoWait, wifiStepConnectedCheck,
    wifiStepErrorTimeout, h, h30, WIFISTATE_CONNECTING, WIFISTATE_CONNECTED,
    WIFISTATE_DISCOWAIT, WIFISTATE_ERRORTIMEOUT, WIFIWAIT_MAX]

theorem wifiService_connecting_timeout (m : WifiMachine)
    (h : m.wifiState = WIFISTATE_CONNECTING)
    (hge : m.wifiWaitSecondCounter + 1 ≥ WIFIWAIT_MAX) :
    wifiService false m =
      { m with wifiState := WIFISTATE_ERRORTIMEOUT, wifiWaitSecondCounter := 1
               disconnectCalls := m.disconnectCalls + 1 } := by
  have h30 : (30 : Int) ≤ m.wifiWaitSecondCounter + 1 := by
    simp [WIFIWAIT_MAX] at hge; omega
  simp [wifiService, wifiStepConnecting, wifiStepDiscoWait, wifiStepConnectedCheck,
    wifiStepErrorTimeout, h, h30, WIFISTATE_CONNECTING, WIFISTATE_CONNECTED,
    WIFISTATE_DISCOWAIT, WIFISTATE_ERRORTIMEOUT, WIFIWAIT_MAX, WIFIRECONNECT_MAX]

theorem wifiService_discowait_wait (s : Bool) (m : WifiMachine)
    (h : m.wifiState = WIFISTATE_DISCOWAIT)
    (hlt : m.wifiWaitSecondCounter + 1 < WIFIDISCOWAIT_MAX) :
    wifiService s m =
      { m with wifiWaitSecondCounter := m.wifiWaitSecondCounter + 1 } := by
  have h10 : ¬ ((10 : Int) ≤ m.wifiWaitSecondCounter + 1) := by
    simp [WIFIDISCOWAIT_MAX] at hlt; omega
  simp [wifiService, wifiStepConnecting, wifiStepDiscoWait, wifiStepConnectedCheck,
    wifiStepErrorTimeout, h, h10, WIFISTATE_CONNECTING, WIFISTATE_CONNECTED,
    WIFISTATE_DISCOWAIT, WIFISTATE_ERRORTIMEOUT, WIFIDISCOWAIT_MAX]

theorem wifiService_discowait_fire (s : Bool) (m : WifiMachine)
    (h : m.wifiState = WIFISTATE_DISCOWAIT)
    (hge : m.wifiWaitSecondCounter + 1 ≥ WIFIDISCOWAIT_MAX) :
    wifiService s m =
      { m with wifiState := WIFISTATE_CONNECTING, wifiWaitSecondCounter := 0
               beginCalls := m.beginCalls + 1 } := by
  have h10 : (10 : Int) ≤ m.wifiWaitSecondCounter + 1 := by
    simp [WIFIDISCOWAIT_MAX] at hge; omega
  simp [wifiService, wifiStepConnecting, wifiStepDiscoWait, wifiStepConnectedCheck,
    wifiStepErrorTimeout, wifiConnect, h, h10, WIFISTATE_CONNECTING, WIFISTATE_CONNECTED,
    WIFISTATE_DISCOWAIT, WIFISTATE_ERRORTIMEOUT, WIFIDISCOWAIT_MAX]

theorem wifiService_connected_drop (m : WifiMachine)
    (h : m.wifiState = WIFISTATE_CONNECTED) :
    wifiService false m =
      { m with wifiState := WIFISTATE_DISCOWAIT, wifiWaitSecondCounter := 0 } := by
  simp [wifiService, wifiStepConnecting, wifiStepDiscoWait, wifiStepConnectedCheck,
    wifiStepErrorTimeout, h, WIFISTATE_CONNECTING, WIFISTATE_CONNECTED,
    WIFISTATE_DISCOWAIT, WIFISTATE_ERRORTIMEOUT]

theorem wifiService_connected_keep (m : WifiMachine)
    (h : m.wifiState = WIFISTATE_CONNECTED) :
    wifiService true m = m := by
  simp [wifiService, wifiStepConnecting, wifiStepDiscoWait, wifiStepConnectedCheck,
    wifiStepErrorTimeout, h, WIFISTATE_CONNECTING, WIFISTATE_CONNECTED,
    WIFISTATE_DISCOWAIT, WIFISTATE_ERRORTIMEOUT]

theorem wifiService_et_wait (s : Bool) (m : WifiMachine)
    (h : m.wifiState = WIFISTATE_ERRORTIMEOUT)
    (hlt : m.wifiWaitSecondCounter + 1 < WIFIRECONNECT_MAX) :
    wifiService s m =
      { m with wifiWaitSecondCounter := m.wifiWaitSecondCounter + 1 } := by
  have h60 : ¬ ((60 : Int) ≤ m.wifiWaitSecondCounter + 1) := by
    simp [WIFIRECONNECT_MAX] at hlt; omega
  simp [wifiService, wifiStepConnecting, wifiStepDiscoWait, wifiStepConnectedCheck,
    wifiStepErrorTimeout, h, h60, WIFISTATE_CONNECTING, WIFISTATE_CONNECTED,
    WIFISTATE_DISCOWAIT, WIFISTATE_ERRORTIMEOUT, WIFIRECONNECT_MAX]

theorem wifiService_et_fire (s : Bool) (m : WifiMachine)
    (h : m.wifiState = WIFISTATE_ERRORTIMEOUT)
    (hge : m.wifiWaitSecondCounter + 1 ≥ WIFIRECONNECT_MAX) :
    wifiService s m =
      { m with wifiState := WIFISTATE_CONNECTING, wifiWaitSecondCounter := 0
               beginCalls := m.beginCalls + 1 } := by
  have h60 : (60 : Int) ≤ m.wifiWaitSecondCounter + 1 := by
    simp [WIFIRECONNECT_MAX] at hge; omega
  simp [wifiService, wifiStepConnecting, wifiStepDiscoWait, wifiStepConnectedCheck,
    wifiStepErrorTimeout, wifiConnect, h, h60, WIFISTATE_CONNECTING, WIFISTATE_CONNECTED,
    WIFISTATE_DISCOWAIT, WIFISTATE_ERRORTIMEOUT, WIFIRECONNECT_MAX]

/-! ## Iteration lemmas -/

theorem wifiServiceN_succ_last (s : Bool) (n : Nat) (m : WifiMachine) :
    wifiServiceN s (n + 1) m = wifiService s (wifiServiceN s n m) := by
  induction n generalizing m with
  | zero => rfl
  | succ n ih =>
    show wifiServiceN s (n + 1) (wifiService s m) = _
    rw [ih]
    rfl

theorem wifiServiceN_connecting (n : Nat) (m : WifiMachine)
    (h : m.wifiState = WIFISTATE_CONNECTING)
    (hn : m.wifiWaitSecondCounter + n < WIFIWAIT_MAX) :
    wifiServiceN false n m =
      { m with wifiWaitSecondCounter := m.wifiWaitSecondCounter + n } := by
  induction n generalizing m with
  | zero => simp [wifiServiceN]
  | succ n ih =>
    have h1 : m.wifiWaitSecondCounter + 1 < WIFIWAIT_MAX := by
      simp [WIFIWAIT_MAX] at hn ⊢; omega
    show wifiServiceN false n (wifiService false m) = _
    rw [wifiService_connecting_wait m h h1]
    rw [ih _ (by simp [h]) (by simp [WIFIWAIT_MAX] at hn ⊢; omega)]
    simp
    omega

theorem wifiServiceRun_discowait (ss : List Bool) (m : WifiMachine)
    (h : m.wifiState = WIFISTATE_DISCOWAIT)
    (hn : m.wifiWaitSecondCounter + ss.length < WIFIDISCOWAIT_MAX) :
    wifiServiceRun ss m =
      { m with wifiWaitSecondCounter := m.wifiWaitSecondCounter + ss.length } := by
  induction ss generalizing m with
  | nil => simp [wifiServiceRun]
  | cons s ss ih =>
    have h1 : m.wifiWaitSecondCounter + 1 < WIFIDISCOWAIT_MAX := by
      simp [WIFIDISCOWAIT_MAX] at hn ⊢; omega
    show wifiServiceRun ss (wifiService s m) = _
    rw [wifiService_discowait_wait s m h h1]
    rw [ih _ (by simp [h]) (by simp [WIFIDISCOWAIT_MAX] at hn ⊢; omega)]
    simp
    omega

theorem wifiServiceRun_et (ss : List Bool) (m : WifiMachine)
    (h : m.wifiState = WIFISTATE_ERRORTIMEOUT)
    (hn : m.wifiWaitSecondCounter + ss.length < WIFIRECONNECT_MAX) :
    wifiServiceRun ss m =
      { m with wifiWaitSecondCounter := m.wifiWaitSecondCounter + ss.length } := by
  induction ss generalizing m with
  | nil => simp [wifiServiceRun]
  | cons s ss ih =>
    have h1 : m.wifiWaitSecondCounter + 1 < WIFIRECONNECT_MAX := by
      simp [WIFIRECONNECT_MAX] at hn ⊢; omega
    show wifiServiceRun ss (wifiService s m) = _
    rw [wifiService_et_wait s m h h1]
    rw [ih _ (by simp [h]) (by simp [WIFIRECONNECT_MAX] at hn ⊢; omega)]
    simp
    omega

/-! ## Step and iteration lemmas for `ntpService` -/

theorem ntpService_not_started (u : Bool) (e : Nat) (m : NtpMachine)
    (h : ¬ m.ntpState = NTPSTATE_STARTED) :
    ntpService u e m = m := by
  simp [ntpService, h]

theorem ntpService_started_fail (e : Nat) (m : NtpMachine)
    (h : m.ntpState = NTPSTATE_STARTED)
    (hlt : m.ntpWaitSecondCounter + 1 < NTPWAIT_MAX) :
    ntpService false e m =
      { m with ntpWaitSecondCounter := m.ntpWaitSecondCounter + 1
               forceUpdateCalls := m.forceUpdateCalls + 1 } := by
  have h30 : ¬ ((30 : Int) ≤ m.ntpWaitSecondCounter + 1) := by
    simp [NTPWAIT_MAX] at hlt; omega
  simp [ntpService, h, h30, NTPWAIT_MAX]

theorem ntpService_started_timeout (e : Nat) (m : NtpMachine)
    (h : m.ntpState = NTPSTATE_STARTED)
    (hge : m.ntpWaitSecondCounter + 1 ≥ NTPWAIT_MAX) :
    ntpService false e m =
      { m with ntpState := NTPSTATE_TIMEOUTERROR
               ntpWaitSecondCounter := m.ntpWaitSecondCounter + 1
               ntpSuccess := false
               forceUpdateCalls := m.forceUpdateCalls + 1 } := by
  have h30 : (30 : Int) ≤ m.ntpWaitSecondCounter + 1 := by
    simp [NTPWAIT_MAX] at hge; omega
  simp [ntpService, h, h30, NTPWAIT_MAX]

theorem ntpServiceN_succ_last (u : Bool) (e : Nat) (n : Nat) (m : NtpMachine) :
    ntpServiceN u e (n + 1) m = ntpService u e (ntpServiceN u e n m) := by
  induction n generalizing m with
  | zero => rfl
  | succ n ih =>
    show ntpServiceN u e (n + 1) (ntpService u e m) = _
    rw [ih]
    rfl

theorem ntpServiceN_started_fail (e : Nat) (n : Nat) (m : NtpMachine)
    (h : m.ntpState = NTPSTATE_STARTED)
    (hn : m.ntpWaitSecondCounter + n < NTPWAIT_MAX) :
    ntpServiceN false e n m =
      { m with ntpWaitSecondCounter := m.ntpWaitSecondCounter + n
               forceUpdateCalls := m.forceUpdateCalls + n } := by
  induction n generalizing m with
  | zero => simp [ntpServiceN]
  | succ n ih =>
    have h1 : m.ntpWaitSecondCounter + 1 < NTPWAIT_MAX := by
      simp [NTPWAIT_MAX] at hn ⊢; omega
    show ntpServiceN false e n (ntpService false e m) = _
    rw [ntpService_started_fail e m h h1]
    rw [ih _ (by simp [h]) (by simp [NTPWAIT_MAX] at hn ⊢; omega)]
    simp
    constructor
    · omega
    · omega

/-! ## Run lemmas for the edge detectors -/

theorem runDetector_secondDetector (b : Int) (rs : List Int) :
    runDetector secondDetector b rs = edgeEvents b rs := by
  induction rs generalizing b with
  | nil => rfl
  | cons r rs ih =>
    by_cases hr : r = b
    · simp [runDetector, secondDetector, edgeEvents, hr, ih]
    · simp [runDetector, secondDetector, edgeEvents, hr, ih]

theorem runDetector_minuteDetector (b : Int) (rs : List Int) :
    runDetector minuteDetector b rs = edgeEvents b rs := by
  induction rs generalizing b with
  | nil => rfl
  | cons r rs ih =>
    by_cases hr : r = b
    · simp [runDetector, minuteDetector, edgeEvents, hr, ih]
    · simp [runDetector, minuteDetector, edgeEvents, hr, ih]

theorem runDetector_hourDetector (b : Int) (rs : List Int) :
    runDetector hourDetector b rs = edgeEvents b rs := by
  induction rs generalizing b with
  | nil => rfl
  | cons r rs ih =>
    by_cases hr : r = b
    · simp [runDetector, hourDetector, edgeEvents, hr, ih]
    · simp [runDetector, hourDetector, edgeEvents, hr, ih]

theorem runDetector_dayDetector (b : Int) (rs : List Int) (hb : b ≠ -1)
    (hrs : ∀ r ∈ rs, r ≠ -1) :
    runDetector dayDetector b rs = edgeEvents b rs := by
  induction rs generalizing b with
  | nil => rfl
  | cons r rs ih =>
    have hr1 : r ≠ -1 := hrs r (by simp)
    have hrs1 : ∀ x ∈ rs, x ≠ -1 := fun x hx => hrs x (by simp [hx])
    by_cases hr : r = b
    · simpa [runDetector, dayDetector, edgeEvents, hr] using ih b hb hrs1
    · simpa [runDetector, dayDetector, edgeEvents, hr, hb] using ih r hr1 hrs1

/-! ## The claims -/

set_option maxRecDepth 8000

/-- Claim C1: starting in state `Connecting` immediately after `connect()`
(`waitCounter = 0`), if the network layer never reports associated, then
`wifiService()` calls 1 through 29 leave the state `Connecting` and issue no
disassociation request, and exactly the 30th call transitions the state to
`ErrorTimeout` and issues a disassociation request — not before, not
after. -/
theorem wifi_connect_timeout_boundary (m : WifiMachine) :
    (∀ k, k < 30 →
      (wifiServiceN false k (wifiConnect m)).wifiState = WIFISTATE_CONNECTING ∧
      (wifiServiceN false k (wifiConnect m)).disconnectCalls = m.disconnectCalls) ∧
    (wifiServiceN false 30 (wifiConnect m)).wifiState = WIFISTATE_ERRORTIMEOUT ∧
    (wifiServiceN false 30 (wifiConnect m)).disconnectCalls = m.disconnectCalls + 1 := by
  have hstate : (wifiConnect m).wifiState = WIFISTATE_CONNECTING := by simp [wifiConnect]
  have h30 : wifiServiceN false 30 (wifiConnect m) =
      { wifiState := WIFISTATE_ERRORTIMEOUT, wifiWaitSecondCounter := 1
        disconnectCalls := m.disconnectCalls + 1, beginCalls := m.beginCalls + 1 } := by
    rw [show (30 : Nat) = 29 + 1 from rfl, wifiServiceN_succ_last,
      wifiServiceN_connecting 29 (wifiConnect m) hstate
        (by simp [wifiConnect, WIFIWAIT_MAX]),
      wifiService_connecting_timeout _ (by simp [wifiConnect])
        (by simp [wifiConnect, WIFIWAIT_MAX])]
    simp [wifiConnect]
  refine ⟨fun k hk => ?_, ?_, ?_⟩
  · rw [wifiServiceN_connecting k (wifiConnect m) hstate
      (by simp [wifiConnect, WIFIWAIT_MAX]; omega)]
    exact ⟨by simp [wifiConnect], by simp [wifiConnect]⟩
  · rw [h30]
  · rw [h30]

/-- Claim C2: in state `Started`, if the time client's `update()` reports
success, that single `ntpService()` call sets the Clock Source to the
returned epoch, invokes `schedulerInit()` exactly once, sets `ntpSuccess`,
increments `ntpAttempts` by exactly 1, and transitions to `Complete` (the
wait counter and the other effect counters are untouched). -/
theorem ntp_success_effect (m : NtpMachine) (e : Nat)
    (h : m.ntpState = NTPSTATE_STARTED) :
    ntpService true e m =
      { m with ntpState := NTPSTATE_COMPLETE
               ntpSuccess := true
               ntpAttempts := m.ntpAttempts + 1
               rtcSetCalls := m.rtcSetCalls ++ [e]
               schedulerInitCalls := m.schedulerInitCalls + 1 } := by
  simp [ntpService, h]

/-- Witness for claim C2 at the machine reached by `ntpStart` from process
start and epoch 1700000000. -/
theorem ntp_success_effect_witness :
    ntpService true 1700000000 (ntpStart initialNtpMachine) =
      { ntpState := NTPSTATE_COMPLETE, ntpWaitSecondCounter := 0, ntpAttempts := 1
        ntpSuccess := true, rtcSetCalls := [1700000000], schedulerInitCalls := 1
        forceUpdateCalls := 0 } :=
  ntp_success_effect (ntpStart initialNtpMachine) 1700000000 (by decide)

/-- Claim C3: for each of the four rollover detectors, once the baseline is
established (not the `-1` sentinel): a call made while the clock field still
equals the baseline returns false and leaves the baseline unchanged, and a
call after the field changed returns true and updates the baseline; hence
over any sequence of readings, the outputs are exactly the edge-event
pattern — true precisely at a reading that differs from its predecessor. -/
theorem detectors_edge_triggered :
    (∀ b r : Int, b ≠ -1 → r = b →
      dayDetector b r = (false, b) ∧ hourDetector b r = (false, b) ∧
      minuteDetector b r = (false, b) ∧ secondDetector b r = (false, b)) ∧
    (∀ b r : Int, b ≠ -1 → r ≠ b →
      dayDetector b r = (true, r) ∧ hourDetector b r = (true, r) ∧
      minuteDetector b r = (true, r) ∧ secondDetector b r = (true, r)) ∧
    (∀ (b : Int) (rs : List Int), b ≠ -1 → (∀ r ∈ rs, r ≠ -1) →
      runDetector dayDetector b rs = edgeEvents b rs ∧
      runDetector hourDetector b rs = edgeEvents b rs ∧
      runDetector minuteDetector b rs = edgeEvents b rs ∧
      runDetector secondDetector b rs = edgeEvents b rs) := by
  refine ⟨fun b r hb hr => ?_, fun b r hb hr => ?_, fun b rs hb hrs => ?_⟩
  · subst hr
    simp [dayDetector, hourDetector, minuteDetector, secondDetector]
  · simp [dayDetector, hourDetector, minuteDetector, secondDetector, hr, hb]
  · exact ⟨runDetector_dayDetector b rs hb hrs, runDetector_hourDetector b rs,
      runDetector_minuteDetector b rs, runDetector_secondDetector b rs⟩

/-- Claim C4: from `Connected`, if the network layer reports not-associated,
the very next `wifiService()` call moves to `DisconnectWait` with
`waitCounter = 0`; the following 9 calls stay in `DisconnectWait` without
issuing any request, and the 10th further call invokes `connect()`, making
the state `Connecting`. -/
theorem wifi_spontaneous_disconnect_path (m : WifiMachine)
    (h : m.wifiState = WIFISTATE_CONNECTED) :
    wifiService false m =
      { m with wifiState := WIFISTATE_DISCOWAIT, wifiWaitSecondCounter := 0 } ∧
    (∀ ss : List Bool, ss.length ≤ 9 →
      wifiServiceRun ss (wifiService false m) =
        { m with wifiState := WIFISTATE_DISCOWAIT
                 wifiWaitSecondCounter := (ss.length : Int) }) ∧
    (∀ ss : List Bool, ss.length = 9 → ∀ s : Bool,
      wifiService s (wifiServiceRun ss (wifiService false m)) =
        { m with wifiState := WIFISTATE_CONNECTING, wifiWaitSecondCounter := 0
                 beginCalls := m.beginCalls + 1 }) := by
  have hdrop := wifiService_connected_drop m h
  refine ⟨hdrop, fun ss hlen => ?_, fun ss hlen s => ?_⟩
  · rw [hdrop, wifiServiceRun_discowait ss _ (by simp)
      (by simp [WIFIDISCOWAIT_MAX]; omega)]
    simp
  · rw [hdrop, wifiServiceRun_discowait ss _ (by simp)
      (by simp [WIFIDISCOWAIT_MAX, hlen]),
      wifiService_discowait_fire s _ (by simp)
        (by simp [WIFIDISCOWAIT_MAX, hlen])]

/-- Witness for claim C4: a connected machine observes a drop and moves to
`DisconnectWait` with a zeroed counter. -/
theorem wifi_spontaneous_disconnect_path_witness :
    wifiService false
        { wifiState := WIFISTATE_CONNECTED, wifiWaitSecondCounter := 0
          disconnectCalls := 0, beginCalls := 1 } =
      { wifiState := WIFISTATE_DISCOWAIT, wifiWaitSecondCounter := 0
        disconnectCalls := 0, beginCalls := 1 } :=
  (wifi_spontaneous_disconnect_path _ (by decide)).1

/-- Claim C5: in state `Started` with a wait counter of 0 and a time client
that never reports success, the first 29 `ntpService()` calls leave the state
`Started`; the 30th transitions to `TimeoutError` with `ntpSuccess = false`
and `ntpAttempts` unchanged; and once in `TimeoutError`, every further
`ntpService()` call leaves the machine entirely unchanged (no self-retry). -/
theorem ntp_timeout_terminal (m : NtpMachine) (e : Nat)
    (h : m.ntpState = NTPSTATE_STARTED)
    (hc : m.ntpWaitSecondCounter = 0) :
    (∀ k, k ≤ 29 → (ntpServiceN false e k m).ntpState = NTPSTATE_STARTED) ∧
    ((ntpServiceN false e 30 m).ntpState = NTPSTATE_TIMEOUTERROR ∧
     (ntpServiceN false e 30 m).ntpSuccess = false ∧
     (ntpServiceN false e 30 m).ntpAttempts = m.ntpAttempts) ∧
    (∀ m' : NtpMachine, m'.ntpState = NTPSTATE_TIMEOUTERROR →
      ∀ (u : Bool) (e' : Nat), ntpService u e' m' = m') := by
  have h30 : ntpServiceN false e 30 m =
      { m with ntpState := NTPSTATE_TIMEOUTERROR
               ntpWaitSecondCounter := 30
               ntpSuccess := false
               forceUpdateCalls := m.forceUpdateCalls + 30 } := by
    rw [show (30 : Nat) = 29 + 1 from rfl, ntpServiceN_succ_last,
      ntpServiceN_started_fail e 29 m h (by simp [NTPWAIT_MAX, hc]),
      ntpService_started_timeout e _ (by simp [h]) (by simp [NTPWAIT_MAX, hc])]
    simp [hc]
  refine ⟨fun k hk => ?_, by rw [h30]; exact ⟨rfl, rfl, rfl⟩, fun m' h' u e' => ?_⟩
  · rw [ntpServiceN_started_fail e k m h (by simp [NTPWAIT_MAX, hc]; omega)]
    simpa using h
  · exact ntpService_not_started u e' m' (by simp [h', NTPSTATE_TIMEOUTERROR, NTPSTATE_STARTED])

/-- Witness for claim C5 at the machine reached by `ntpStart` from process
start: after 30 failing calls the state is `TimeoutError`. -/
theorem ntp_timeout_terminal_witness :
    (ntpServiceN false 0 30 (ntpStart initialNtpMachine)).ntpState =
      NTPSTATE_TIMEOUTERROR :=
  (ntp_timeout_terminal (ntpStart initialNtpMachine) 0 (by decide) (by decide)).2.1.1

/-- Claim C6: from `ErrorTimeout` with `waitCounter = 0`, any 59 consecutive
`wifiService()` calls (whatever the network layer reports) leave the machine
in `ErrorTimeout`, only counting; the 60th call invokes `connect()`,
transitioning to `Connecting`. -/
theorem wifi_error_timeout_recovery (m : WifiMachine)
    (h : m.wifiState = WIFISTATE_ERRORTIMEOUT)
    (hc : m.wifiWaitSecondCounter = 0) :
    (∀ ss : List Bool, ss.length ≤ 59 →
      wifiServiceRun ss m = { m with wifiWaitSecondCounter := (ss.length : Int) }) ∧
    (∀ ss : List Bool, ss.length = 59 → ∀ s : Bool,
      wifiService s (wifiServiceRun ss m) =
        { m with wifiState := WIFISTATE_CONNECTING, wifiWaitSecondCounter := 0
                 beginCalls := m.beginCalls + 1 }) := by
  refine ⟨fun ss hlen => ?_, fun ss hlen s => ?_⟩
  · rw [wifiServiceRun_et ss m h (by simp [WIFIRECONNECT_MAX, hc]; omega)]
    simp [hc]
  · rw [wifiServiceRun_et ss m h (by simp [WIFIRECONNECT_MAX, hc, hlen]),
      wifiService_et_fire s _ (by simp [h]) (by simp [WIFIRECONNECT_MAX, hc, hlen])]

/-- Witness for claim C6: from `ErrorTimeout` with a zeroed counter, 59
all-failing service calls only count up to 59. -/
theorem wifi_error_timeout_recovery_witness :
    wifiServiceRun (List.replicate 59 false)
        { wifiState := WIFISTATE_ERRORTIMEOUT, wifiWaitSecondCounter := 0
          disconnectCalls := 1, beginCalls := 1 } =
      { wifiState := WIFISTATE_ERRORTIMEOUT, wifiWaitSecondCounter := 59
        disconnectCalls := 1, beginCalls := 1 } :=
  (wifi_error_timeout_recovery _ (by decide) (by decide)).1
    (List.replicate 59 false) (by simp)

/-- Claim C7 counterexample: the state reached by `connect()` and 29
unassociated `wifiService()` calls is `Connecting` with `waitCounter = 29`;
the next `wifiService()` call changes the state (to `ErrorTimeout`) but ends
with `waitCounter = 1`, not 0 — so "waitCounter is 0 after every operation
that changes the state" fails. -/
theorem wifi_wait_counter_reset_counterexample :
    wifiServiceN false 29 (wifiConnect initialWifiMachine) =
      { wifiState := WIFISTATE_CONNECTING, wifiWaitSecondCounter := 29
        disconnectCalls := 0, beginCalls := 1 } ∧
    (wifiService false (wifiServiceN false 29 (wifiConnect initialWifiMachine))).wifiState ≠
      (wifiServiceN false 29 (wifiConnect initialWifiMachine)).wifiState ∧
    ¬ ((wifiService false (wifiServiceN false 29
          (wifiConnect initialWifiMachine))).wifiWaitSecondCounter = 0) := by
  decide

/-- Claim C7 amended: `wifiConnect` and `wifiDisconnect` always end with
`waitCounter = 0`; a `wifiService` call that changes the state ends with
`waitCounter = 0` EXCEPT the call performing the `Connecting` →
`ErrorTimeout` timeout transition, which ends with `waitCounter = 1` (its
`ErrorTimeout` block also runs); and `waitCounter` increases only across
`wifiService` calls that begin and end in the same one of `Connecting`,
`DisconnectWait`, `ErrorTimeout`. -/
theorem wifi_wait_counter_invariant_amended (m : WifiMachine) (s : Bool)
    (hs : m.wifiState = WIFISTATE_DISCONNECTED ∨ m.wifiState = WIFISTATE_CONNECTING ∨
          m.wifiState = WIFISTATE_CONNECTED ∨ m.wifiState = WIFISTATE_DISCOWAIT ∨
          m.wifiState = WIFISTATE_ERRORTIMEOUT)
    (hc : 0 ≤ m.wifiWaitSecondCounter) :
    (wifiConnect m).wifiWaitSecondCounter = 0 ∧
    (wifiDisconnect m).wifiWaitSecondCounter = 0 ∧
    ((wifiService s m).wifiState ≠ m.wifiState →
      (wifiService s m).wifiWaitSecondCounter = 0 ∨
      (m.wifiState = WIFISTATE_CONNECTING ∧
       (wifiService s m).wifiState = WIFISTATE_ERRORTIMEOUT ∧
       (wifiService s m).wifiWaitSecondCounter = 1)) ∧
    ((wifiService s m).wifiWaitSecondCounter > m.wifiWaitSecondCounter →
      (wifiService s m).wifiState = m.wifiState ∧
      (m.wifiState = WIFISTATE_CONNECTING ∨ m.wifiState = WIFISTATE_DISCOWAIT ∨
       m.wifiState = WIFISTATE_ERRORTIMEOUT)) := by
  refine ⟨by simp [wifiConnect], by simp [wifiDisconnect], ?_⟩
  rcases hs with h | h | h | h | h
  · rw [wifiService_disconnected s m h]
    simp
  · cases s with
    | true =>
      rw [wifiService_connecting_assoc m h]
      simp [h, WIFISTATE_CONNECTING, WIFISTATE_CONNECTED]
      omega
    | false =>
      by_cases hb : m.wifiWaitSecondCounter + 1 ≥ WIFIWAIT_MAX
      · rw [wifiService_connecting_timeout m h hb]
        simp [WIFIWAIT_MAX] at hb
        simp [h, WIFISTATE_CONNECTING, WIFISTATE_ERRORTIMEOUT]
        omega
      · push_neg at hb
        rw [wifiService_connecting_wait m h hb]
        simp [h]
  · cases s with
    | true =>
      rw [wifiService_connected_keep m h]
      simp
    | false =>
      rw [wifiService_connected_drop m h]
      simp [h, WIFISTATE_CONNECTED, WIFISTATE_DISCOWAIT]
      omega
  · by_cases hb : m.wifiWaitSecondCounter + 1 ≥ WIFIDISCOWAIT_MAX
    · rw [wifiService_discowait_fire s m h hb]
      simp [WIFIDISCOWAIT_MAX] at hb
      simp [h, WIFISTATE_CONNECTING, WIFISTATE_DISCOWAIT]
      omega
    · push_neg at hb
      rw [wifiService_discowait_wait s m h hb]
      simp [h]
  · by_cases hb : m.wifiWaitSecondCounter + 1 ≥ WIFIRECONNECT_MAX
    · rw [wifiService_et_fire s m h hb]
      simp [WIFIRECONNECT_MAX] at hb
      simp [h, WIFISTATE_CONNECTING, WIFISTATE_ERRORTIMEOUT]
      omega
    · push_neg at hb
      rw [wifiService_et_wait s m h hb]
      simp [h]

/-- Witness for the amended claim C7 at the initial machine. -/
theorem wifi_wait_counter_invariant_amended_witness :
    (wifiConnect initialWifiMachine).wifiWaitSecondCounter = 0 :=
  (wifi_wait_counter_invariant_amended initialWifiMachine false
    (by decide) (by decide)).1

/-- Claim C9: with the unset sentinel baseline `-1`, the day detector's very
first call returns false and only establishes the baseline, while the
second, minute and hour detectors' very first call returns true whenever the
observed clock field differs from the sentinel. -/
theorem detector_first_call_policy :
    (∀ d : Int, d ≠ -1 → dayDetector (-1) d = (false, d)) ∧
    (∀ x : Int, x ≠ -1 →
      secondDetector (-1) x = (true, x) ∧ minuteDetector (-1) x = (true, x) ∧
      hourDetector (-1) x = (true, x)) := by
  constructor
  · intro d hd
    simp [dayDetector, hd]
  · intro x hx
    simp [secondDetector, minuteDetector, hourDetector, hx]

/-- Claim C10: a `wifiService()` call that performs the
`Connecting` → `ErrorTimeout` timeout transition also executes the
`ErrorTimeout` block of that same call (the state checks are sequential, not
exclusive), so the call ends with `waitCounter = 1`; consequently the next
58 calls only count (staying in `ErrorTimeout`) and the automatic reconnect
fires on the 59th call after the call that timed out. -/
theorem wifi_timeout_fall_through (m : WifiMachine)
    (h : m.wifiState = WIFISTATE_CONNECTING)
    (hge : m.wifiWaitSecondCounter + 1 ≥ WIFIWAIT_MAX) :
    wifiService false m =
      { m with wifiState := WIFISTATE_ERRORTIMEOUT, wifiWaitSecondCounter := 1
               disconnectCalls := m.disconnectCalls + 1 } ∧
    (∀ ss : List Bool, ss.length ≤ 58 →
      wifiServiceRun ss (wifiService false m) =
        { m with wifiState := WIFISTATE_ERRORTIMEOUT
                 wifiWaitSecondCounter := 1 + (ss.length : Int)
                 disconnectCalls := m.disconnectCalls + 1 }) ∧
    (∀ ss : List Bool, ss.length = 58 → ∀ s : Bool,
      wifiService s (wifiServiceRun ss (wifiService false m)) =
        { m with wifiState := WIFISTATE_CONNECTING, wifiWaitSecondCounter := 0
                 disconnectCalls := m.disconnectCalls + 1
                 beginCalls := m.beginCalls + 1 }) := by
  have hstep := wifiService_connecting_timeout m h hge
  refine ⟨hstep, fun ss hlen => ?_, fun ss hlen s => ?_⟩
  · rw [hstep, wifiServiceRun_et ss _ (by simp)
      (by simp [WIFIRECONNECT_MAX]; omega)]
  · rw [hstep, wifiServiceRun_et ss _ (by simp)
      (by simp [WIFIRECONNECT_MAX, hlen]),
      wifiService_et_fire s _ (by simp)
        (by simp [WIFIRECONNECT_MAX, hlen])]

/-- Witness for claim C10 at the reachable machine `Connecting` with
`waitCounter = 29`: the timing-out call ends in `ErrorTimeout` with
`waitCounter = 1` and one disassociation request issued. -/
theorem wifi_timeout_fall_through_witness :
    wifiService false
        { wifiState := WIFISTATE_CONNECTING, wifiWaitSecondCounter := 29
          disconnectCalls := 0, beginCalls := 1 } =
      { wifiState := WIFISTATE_ERRORTIMEOUT, wifiWaitSecondCounter := 1
        disconnectCalls := 1, beginCalls := 1 } :=
  (wifi_timeout_fall_through _ (by decide) (by decide)).1
